import Mathlib

/-!
Verification of the Consortium v1 proof-of-authority consensus engine
(consensus/consortium/v1/consortium.go) and its chain-config module
(params package) against their natural-language specification.

Shallow embedding conventions:
* Addresses, hashes, and byte values are `Nat`; byte strings are `List Nat`.
* Go `*big.Int` fields that may be `nil` become `Option` types.
* `uint64` arithmetic that can wrap (subtraction in `Seal`) is made explicit
  with `% 2 ^ 64`.
* Cryptographic primitives (keccak256 over the RLP stream, secp256k1
  recovery) are abstract function parameters; RLP encoding is injective on
  the encoded field tuple, so the encoded stream is represented by the tuple
  itself.
* External collaborators (snapshot retrieval, the validator oracle, the
  system-transaction applicator, fork-hash verification) enter as
  `Except`-valued parameters, mirroring the Go call results.
* A Go runtime panic (nil dereference, out-of-range slice, division by a
  zero-length list) is modeled by the dedicated error `VErr.goPanic` or by
  `Option.none`, as noted at each definition.
-/

namespace RoninV1

abbrev Address := Nat

/-- Header fields consumed by the v1 engine (types.Header projection).
`difficulty` and `number` are `*big.Int` in Go and hence optional;
`nonce` is the 8-byte block nonce read as a number (0 = `0x00..0`). -/
structure Header where
  parentHash : Nat
  uncleHash : Nat
  coinbase : Address
  root : Nat
  txHash : Nat
  receiptHash : Nat
  bloom : Nat
  difficulty : Option Int
  number : Option Nat
  gasLimit : Nat
  gasUsed : Nat
  time : Nat
  extra : List Nat
  mixDigest : Nat
  nonce : Nat
deriving DecidableEq, Repr

/-- extraVanity: fixed number of extra-data prefix bytes reserved for signer vanity. -/
def extraVanity : Nat := 32

/-- ExtraSeal (crypto.SignatureLength): fixed number of trailing extra-data bytes holding the signature. -/
def extraSeal : Nat := 65

/-- common.AddressLength. -/
def addressLength : Nat := 20

/-- diffInTurn: block difficulty for in-turn signatures. -/
def diffInTurn : Int := 7

/-- diffNoTurn: block difficulty for out-of-turn signatures. -/
def diffNoTurn : Int := 3

/-- epochLength: default number of blocks after which to checkpoint. -/
def epochLength : Nat := 30000

/-- uncleHash = types.CalcUncleHash(nil) = keccak256(RLP([])). -/
def uncleHash : Nat := 0x1dcc4de8dec75d7aab85b567b6ccd41ad312451b948a7413f0a142fd40d49347

/-- 2^64, the wrap modulus of Go's uint64 arithmetic. -/
def u64Mod : Nat := 18446744073709551616

/-- Error outcomes of the engine (section 7 of the spec plus the private
errors of consortium.go). `goPanic` marks a Go runtime panic. -/
inductive VErr where
  | unknownBlock
  | unknownAncestor
  | futureBlock
  | invalidNonce
  | missingVanity
  | missingSignature
  | extraSigners
  | invalidCheckpointSigners
  | invalidMixDigest
  | invalidUncleHash
  | invalidDifficulty
  | wrongDifficulty
  | invalidTimestamp
  | unauthorizedSigner
  | wrongCoinbase
  | recentlySigned
  | systemTxMismatch
  | sealingPaused
  | forkHashMismatch
  | goPanic
deriving DecidableEq, Repr

/-- Snapshot: the authorization snapshot (snapshot.go data carried through
consortium.go). `signerSet` is the membership map, `signerList` the ordered
list, `recents` the block-number → signer map as an association list. -/
structure Snapshot where
  number : Nat
  hash : Nat
  signerSet : List Address
  signerList : List Address
  recents : List (Nat × Address)
deriving DecidableEq, Repr

/-! ## Header codec and seal hash -/

/-- The ordered 15-item tuple written by encodeSigHeader. RLP encoding is
injective on this tuple, so it stands for the encoded byte stream. -/
structure SigHeaderFields where
  parentHash : Nat
  uncleHash : Nat
  coinbase : Address
  root : Nat
  txHash : Nat
  receiptHash : Nat
  bloom : Nat
  difficulty : Option Int
  number : Option Nat
  gasLimit : Nat
  gasUsed : Nat
  time : Nat
  extraNoSeal : List Nat
  mixDigest : Nat
  nonce : Nat
deriving DecidableEq, Repr

/-- encodeSigHeader from consortium.go: the RLP list of the 15 header fields
with `Extra[:len(Extra)-65]` in place of the extra-data. The Go slice
expression panics when the extra-data is shorter than 65 bytes (the source
comment says so explicitly); the panic is modeled as `none`. -/
def encodeSigHeader (header : Header) : Option SigHeaderFields :=
  if header.extra.length < extraSeal then none
  else some {
    parentHash := header.parentHash
    uncleHash := header.uncleHash
    coinbase := header.coinbase
    root := header.root
    txHash := header.txHash
    receiptHash := header.receiptHash
    bloom := header.bloom
    difficulty := header.difficulty
    number := header.number
    gasLimit := header.gasLimit
    gasUsed := header.gasUsed
    time := header.time
    extraNoSeal := header.extra.take (header.extra.length - extraSeal)
    mixDigest := header.mixDigest
    nonce := header.nonce }

/-- SealHash from consortium.go: keccak256 of the encodeSigHeader stream.
`keccakRLP` abstracts keccak256 composed with the RLP serializer; `none`
propagates the slice panic of encodeSigHeader (SealHash itself has no error
return in Go: its result type is `common.Hash`). -/
def SealHash (keccakRLP : SigHeaderFields → Nat) (header : Header) : Option Nat :=
  (encodeSigHeader header).map keccakRLP

/-- The signature-attachment step of Seal:
`copy(header.Extra[len(header.Extra)-extraSeal:], sighash)` overwrites the
trailing 65 extra-data bytes with the produced signature. -/
def attachSignature (header : Header) (sig : List Nat) : Header :=
  { header with extra := header.extra.take (header.extra.length - extraSeal) ++ sig }

/-- Ecrecover from consortium.go. `cached` is the sig-cache lookup result for
this header's hash; `recoverAddr` abstracts crypto.Ecrecover over the seal
hash plus the keccak address derivation, returning the recovered address or
a failure. Go returns an `(Address, error)` pair, with the zero address
alongside every error. -/
def Ecrecover (keccakRLP : SigHeaderFields → Nat)
    (recoverAddr : Nat → List Nat → Except VErr Address)
    (cached : Option Address) (header : Header) : Address × Option VErr :=
  match cached with
  | some a => (a, none)
  | none =>
    if header.extra.length < extraSeal then (0, some .missingSignature)
    else
      let signature := header.extra.drop (header.extra.length - extraSeal)
      match SealHash keccakRLP header with
      | none => (0, some .goPanic)
      | some sealhash =>
        match recoverAddr sealhash signature with
        | .error e => (0, some e)
        | .ok signer => (signer, none)

/-- Author from consortium.go: returns Ecrecover on the header with the
engine's signature cache. -/
def Author (keccakRLP : SigHeaderFields → Nat)
    (recoverAddr : Nat → List Nat → Except VErr Address)
    (cached : Option Address) (header : Header) : Address × Option VErr :=
  Ecrecover keccakRLP recoverAddr cached header

/-! ## Chain config (params package) -/

/-- ChainConfig: the optional activation block of every fork, plus chain id
and the DAO support flag (fields consumed by the claims). Block numbers are
non-negative in every configuration, hence `Option Nat`. -/
structure ChainConfig where
  chainID : Option Nat
  daoForkSupport : Bool
  homesteadBlock : Option Nat
  daoForkBlock : Option Nat
  eip150Block : Option Nat
  eip155Block : Option Nat
  eip158Block : Option Nat
  byzantiumBlock : Option Nat
  constantinopleBlock : Option Nat
  petersburgBlock : Option Nat
  istanbulBlock : Option Nat
  muirGlacierBlock : Option Nat
  berlinBlock : Option Nat
  londonBlock : Option Nat
  arrowGlacierBlock : Option Nat
  odysseusBlock : Option Nat
  fenixBlock : Option Nat
  consortiumV2Block : Option Nat
  puffyBlock : Option Nat
  bubaBlock : Option Nat
  olekBlock : Option Nat
  shillinBlock : Option Nat
  antennaBlock : Option Nat
  mikoBlock : Option Nat
  trippBlock : Option Nat
  aaronBlock : Option Nat
  shanghaiBlock : Option Nat
  cancunBlock : Option Nat
  venokiBlock : Option Nat
  pragueBlock : Option Nat
deriving DecidableEq, Repr

/-- isForked: whether a fork scheduled at block s is active at the given
head block; false when either side is nil. -/
def isForked (s head : Option Nat) : Bool :=
  match s, head with
  | some s', some head' => decide (s' ≤ head')
  | _, _ => false

/-- configNumEqual from the params package. -/
def configNumEqual (x y : Option Nat) : Bool :=
  match x with
  | none => y.isNone
  | some a =>
    match y with
    | none => false
    | some b => a == b

/-- IsConstantinople. -/
def IsConstantinople (c : ChainConfig) (num : Option Nat) : Bool :=
  isForked c.constantinopleBlock num

/-- IsPetersburg: active when the Petersburg block is reached, or when the
Petersburg block is nil and Constantinople is active. -/
def IsPetersburg (c : ChainConfig) (num : Option Nat) : Bool :=
  isForked c.petersburgBlock num ||
    (c.petersburgBlock.isNone && isForked c.constantinopleBlock num)

/-- IsEIP158. -/
def IsEIP158 (c : ChainConfig) (num : Option Nat) : Bool :=
  isForked c.eip158Block num

/-- IsDAOFork. -/
def IsDAOFork (c : ChainConfig) (num : Option Nat) : Bool :=
  isForked c.daoForkBlock num

/-- IsOnConsortiumV2: whether num equals the ConsortiumV2 fork block. -/
def IsOnConsortiumV2 (c : ChainConfig) (num : Option Nat) : Bool :=
  configNumEqual c.consortiumV2Block num

/-! ## Turn computation, seal verification, header verification -/

/-- signerInTurn from consortium.go: whether it is the signer's turn counted
from the last checkpoint. Go computes
`(number - number/Epoch*Epoch) % uint64(len(validators))` and indexes the
list; it panics when `validators` is empty (modulo by zero), so theorems
about it assume a non-empty list (`List.getD` with default 0 stands for the
in-range index operation). -/
def signerInTurn (epoch : Nat) (signer : Address) (number : Nat)
    (validators : List Address) : Bool :=
  let lastCheckpoint := number / epoch * epoch
  let index := (number - lastCheckpoint) % validators.length
  validators.getD index 0 == signer

/-- doCalcDifficulty from consortium.go. -/
def doCalcDifficulty (epoch : Nat) (signer : Address) (number : Nat)
    (validators : List Address) : Int :=
  if signerInTurn epoch signer number validators then diffInTurn else diffNoTurn

/-- verifySeal from consortium.go. `snapRes` is the result of the snapshot
retrieval at (number-1, parentHash); `recoverSigner`/`recoverErr` the
`(Address, error)` pair returned by Ecrecover. The commented-out recent-signer check of the
source is absent here exactly as it is absent there. A nil difficulty makes
Go dereference a nil `*big.Int` in `Cmp` (`goPanic`). -/
def verifySeal (epoch : Nat) (snapRes : Except VErr Snapshot)
    (recoverSigner : Address) (recoverErr : Option VErr)
    (header : Header) : Except VErr Unit :=
  match header.number with
  | none => .error .goPanic
  | some number =>
    if number = 0 then .error .unknownBlock
    else
      match snapRes with
      | .error e => .error e
      | .ok snap =>
        match recoverErr with
        | some e => .error e
        | none =>
          let signer := recoverSigner
          if signer ≠ header.coinbase then .error .wrongCoinbase
          else
            let validators := snap.signerList
            if ¬ snap.signerSet.contains signer then .error .unauthorizedSigner
            else
              match header.difficulty with
              | none => .error .goPanic
              | some d =>
                let inturn := signerInTurn epoch signer number validators
                if inturn ∧ d ≠ diffInTurn then .error .wrongDifficulty
                else if ¬ inturn ∧ d ≠ diffNoTurn then .error .wrongDifficulty
                else .ok ()

/-- VerifyHeaderAndParents from consortium.go, standalone checks. `now` is
`time.Now().Unix()`; `forkHashRes` the result of misc.VerifyForkHashes;
`cascadeRes` the result of the cascading-field verification that follows
the standalone checks. -/
def VerifyHeaderAndParents (epoch now : Nat) (forkHashRes : Except VErr Unit)
    (cascadeRes : Except VErr Unit) (header : Header) : Except VErr Unit :=
  match header.number with
  | none => .error .unknownBlock
  | some number =>
    if now < header.time then .error .futureBlock
    else if header.nonce ≠ 0 then .error .invalidNonce
    else if header.extra.length < extraVanity then .error .missingVanity
    else if header.extra.length < extraVanity + extraSeal then .error .missingSignature
    else
      let signersBytes := header.extra.length - extraVanity - extraSeal
      if ¬ number % epoch = 0 ∧ signersBytes ≠ 0 then .error .extraSigners
      else if number % epoch = 0 ∧ signersBytes % addressLength ≠ 0 then
        .error .invalidCheckpointSigners
      else if header.mixDigest ≠ 0 then .error .invalidMixDigest
      else if header.uncleHash ≠ uncleHash then .error .invalidUncleHash
      else if 0 < number ∧ (header.difficulty = none ∨
          (header.difficulty ≠ some diffInTurn ∧ header.difficulty ≠ some diffNoTurn)) then
        .error .invalidDifficulty
      else
        match forkHashRes with
        | .error e => .error e
        | .ok _ => cascadeRes

/-- Seal from consortium.go, up to the error decision that precedes the
actual signing: block-zero check, empty-block check for 0-period chains,
validator-membership check, and the recent-signer-window check. A returned
`.ok ()` means the engine proceeds to sign and schedule the delayed
publication (crypto and timing are outside the embedding).
`validatorsRes` is the result of getValidatorsFromLastCheckpoint, `snapRes`
the snapshot retrieval. The window comparison `seen > number-limit` is
uint64 arithmetic, made explicit with `% 2^64`. -/
def Seal (period : Nat) (val : Address)
    (validatorsRes : Except VErr (List Address))
    (snapRes : Except VErr Snapshot)
    (header : Header) (numTxs : Nat) : Except VErr Unit :=
  match header.number with
  | none => .error .goPanic
  | some number =>
    if number = 0 then .error .unknownBlock
    else if period = 0 ∧ numTxs = 0 then .error .sealingPaused
    else
      match validatorsRes with
      | .error e => .error e
      | .ok validators =>
        if ¬ validators.contains val then .error .unauthorizedSigner
        else
          match snapRes with
          | .error e => .error e
          | .ok snap =>
            let limit := validators.length / 2 + 1
            if snap.recents.any (fun p =>
                p.2 == val && decide ((number + u64Mod - limit) % u64Mod < p.1))
            then .error .recentlySigned
            else .ok ()

/-! ## Finalize -/

/-- Finalize from consortium.go, at a block with the given number. `systemTxs`
is the supplied system-transaction list; `wrapUpEpoch` the injected
WrapUpEpoch applicator, mapping the received transactions to the list left
unconsumed in `*systemTxs` (or an error); `stateRoot` the result of
state.IntermediateRoot. On success Go stamps `header.Root` and
`header.UncleHash = CalcUncleHash(nil)`; the returned pair carries those two
fields. -/
def Finalize (c : ChainConfig) (number : Nat) (systemTxs : List Nat)
    (wrapUpEpoch : List Nat → Except VErr (List Nat))
    (stateRoot : Nat) : Except VErr (Nat × Nat) :=
  let lastBlockInV1 := IsOnConsortiumV2 c (some (number + 1))
  if (0 < systemTxs.length ∧ lastBlockInV1 = false) ∨
      (systemTxs.length = 0 ∧ lastBlockInV1 = true) then
    .error .systemTxMismatch
  else if 0 < systemTxs.length then
    match wrapUpEpoch systemTxs with
    | .error e => .error e
    | .ok remaining =>
      if 0 < remaining.length then .error .systemTxMismatch
      else .ok (stateRoot, uncleHash)
  else .ok (stateRoot, uncleHash)

/-! ## Fork compatibility check -/

/-- ConfigCompatError from the params package. -/
structure ConfigCompatError where
  what : String
  storedConfig : Option Nat
  newConfig : Option Nat
  rewindTo : Nat
deriving DecidableEq, Repr

/-- isForkIncompatible: a fork scheduled at s1 cannot be rescheduled to s2
because head is already past one of them. -/
def isForkIncompatible (s1 s2 head : Option Nat) : Bool :=
  (isForked s1 head || isForked s2 head) && !(configNumEqual s1 s2)

/-- newCompatError: picks the smaller of the two blocks (nil treated as
absent) and rewinds to one below it when positive. -/
def newCompatError (what : String) (storedblock newblock : Option Nat) :
    ConfigCompatError :=
  let rew : Option Nat :=
    match storedblock with
    | none => newblock
    | some sb =>
      match newblock with
      | none => storedblock
      | some nb => if sb < nb then storedblock else newblock
  let rewindTo : Nat :=
    match rew with
    | some r => if 0 < r then r - 1 else 0
    | none => 0
  { what := what, storedConfig := storedblock, newConfig := newblock,
    rewindTo := rewindTo }

/-- checkCompatible from the params package: the first incompatible fork in
canonical order, if any. The source's Petersburg case nests a second test
inside the first (fall-through when the inner test fails), which is the
conjunction of the two tests here. -/
def checkCompatible (c n : ChainConfig) (head : Nat) : Option ConfigCompatError :=
  let h : Option Nat := some head
  if isForkIncompatible c.homesteadBlock n.homesteadBlock h then
    some (newCompatError "Homestead fork block" c.homesteadBlock n.homesteadBlock)
  else if isForkIncompatible c.daoForkBlock n.daoForkBlock h then
    some (newCompatError "DAO fork block" c.daoForkBlock n.daoForkBlock)
  else if IsDAOFork c h && !(c.daoForkSupport == n.daoForkSupport) then
    some (newCompatError "DAO fork support flag" c.daoForkBlock n.daoForkBlock)
  else if isForkIncompatible c.eip150Block n.eip150Block h then
    some (newCompatError "EIP150 fork block" c.eip150Block n.eip150Block)
  else if isForkIncompatible c.eip155Block n.eip155Block h then
    some (newCompatError "EIP155 fork block" c.eip155Block n.eip155Block)
  else if isForkIncompatible c.eip158Block n.eip158Block h then
    some (newCompatError "EIP158 fork block" c.eip158Block n.eip158Block)
  else if IsEIP158 c h && !(configNumEqual c.chainID n.chainID) then
    some (newCompatError "EIP158 chain ID" c.eip158Block n.eip158Block)
  else if isForkIncompatible c.byzantiumBlock n.byzantiumBlock h then
    some (newCompatError "Byzantium fork block" c.byzantiumBlock n.byzantiumBlock)
  else if isForkIncompatible c.constantinopleBlock n.constantinopleBlock h then
    some (newCompatError "Constantinople fork block" c.constantinopleBlock n.constantinopleBlock)
  else if isForkIncompatible c.petersburgBlock n.petersburgBlock h &&
      isForkIncompatible c.constantinopleBlock n.petersburgBlock h then
    some (newCompatError "Petersburg fork block" c.petersburgBlock n.petersburgBlock)
  else if isForkIncompatible c.istanbulBlock n.istanbulBlock h then
    some (newCompatError "Istanbul fork block" c.istanbulBlock n.istanbulBlock)
  else if isForkIncompatible c.muirGlacierBlock n.muirGlacierBlock h then
    some (newCompatError "Muir Glacier fork block" c.muirGlacierBlock n.muirGlacierBlock)
  else if isForkIncompatible c.berlinBlock n.berlinBlock h then
    some (newCompatError "Berlin fork block" c.berlinBlock n.berlinBlock)
  else if isForkIncompatible c.londonBlock n.londonBlock h then
    some (newCompatError "London fork block" c.londonBlock n.londonBlock)
  else if isForkIncompatible c.arrowGlacierBlock n.arrowGlacierBlock h then
    some (newCompatError "Arrow Glacier fork block" c.arrowGlacierBlock n.arrowGlacierBlock)
  else if isForkIncompatible c.odysseusBlock n.odysseusBlock h then
    some (newCompatError "Odysseus fork block" c.odysseusBlock n.odysseusBlock)
  else if isForkIncompatible c.fenixBlock n.fenixBlock h then
    some (newCompatError "Fenix fork block" c.fenixBlock n.fenixBlock)
  else if isForkIncompatible c.consortiumV2Block n.consortiumV2Block h then
    some (newCompatError "Consortium v2 fork block" c.consortiumV2Block n.consortiumV2Block)
  else if isForkIncompatible c.puffyBlock n.puffyBlock h then
    some (newCompatError "Puffy fork block" c.puffyBlock n.puffyBlock)
  else if isForkIncompatible c.bubaBlock n.bubaBlock h then
    some (newCompatError "Buba fork block" c.bubaBlock n.bubaBlock)
  else if isForkIncompatible c.olekBlock n.olekBlock h then
    some (newCompatError "Olek fork block" c.olekBlock n.olekBlock)
  else if isForkIncompatible c.shillinBlock n.shillinBlock h then
    some (newCompatError "Shillin fork block" c.shillinBlock n.shillinBlock)
  else if isForkIncompatible c.antennaBlock n.antennaBlock h then
    some (newCompatError "Antenna fork block" c.antennaBlock n.antennaBlock)
  else if isForkIncompatible c.mikoBlock n.mikoBlock h then
    some (newCompatError "Miko fork block" c.mikoBlock n.mikoBlock)
  else if isForkIncompatible c.trippBlock n.trippBlock h then
    some (newCompatError "Tripp fork block" c.trippBlock n.trippBlock)
  else if isForkIncompatible c.aaronBlock n.aaronBlock h then
    some (newCompatError "Aaron fork block" c.aaronBlock n.aaronBlock)
  else if isForkIncompatible c.shanghaiBlock n.shanghaiBlock h then
    some (newCompatError "Shanghai fork block" c.shanghaiBlock n.shanghaiBlock)
  else if isForkIncompatible c.cancunBlock n.cancunBlock h then
    some (newCompatError "Cancun fork block" c.cancunBlock n.cancunBlock)
  else if isForkIncompatible c.venokiBlock n.venokiBlock h then
    some (newCompatError "Venoki fork block" c.venokiBlock n.venokiBlock)
  else if isForkIncompatible c.pragueBlock n.pragueBlock h then
    some (newCompatError "Prague fork block" c.pragueBlock n.pragueBlock)
  else none

/-- The iteration of CheckCompatible: rerun checkCompatible at the reported
rewind point until no error or the rewind point repeats. The Go loop is
unbounded; every reported error has `rewindTo` strictly below the inspected
head (or repeats and stops), so the fuel passed by `CheckCompatible` always
suffices. -/
def checkCompatibleLoop (c n : ChainConfig) (lasterr : Option ConfigCompatError)
    (bhead : Nat) : Nat → Option ConfigCompatError
  | 0 => lasterr
  | fuel + 1 =>
    match checkCompatible c n bhead with
    | none => lasterr
    | some err =>
      match lasterr with
      | some l =>
        if err.rewindTo = l.rewindTo then lasterr
        else checkCompatibleLoop c n (some err) err.rewindTo fuel
      | none => checkCompatibleLoop c n (some err) err.rewindTo fuel

/-- CheckCompatible from the params package: iterate checkCompatible to find
the lowest conflict. -/
def CheckCompatible (c n : ChainConfig) (height : Nat) : Option ConfigCompatError :=
  checkCompatibleLoop c n none height (height + 2)

/-! ## Concrete fixtures used by witnesses and counterexamples -/

/-- A well-formed base header: three-signer network, block 1, in-turn signer
11 (signer list [10, 11, 12], index 1 % 3 = 1). -/
def hdr0 : Header := {
  parentHash := 0
  uncleHash := uncleHash
  coinbase := 11
  root := 0
  txHash := 0
  receiptHash := 0
  bloom := 0
  difficulty := some 7
  number := some 1
  gasLimit := 0
  gasUsed := 0
  time := 0
  extra := List.replicate 97 0
  mixDigest := 0
  nonce := 0 }

/-- hdr0 with empty extra-data. -/
def hdrNoExtra : Header := { hdr0 with extra := [] }

/-- Genesis snapshot of the three-signer network {10, 11, 12}. -/
def snap0 : Snapshot := {
  number := 0
  hash := 0
  signerSet := [10, 11, 12]
  signerList := [10, 11, 12]
  recents := [] }

/-- snap0 after signer 10 sealed block 1. -/
def snapRec : Snapshot := { snap0 with recents := [(1, 10)] }

/-- A chain config with every fork block unset. -/
def cfgNone : ChainConfig := {
  chainID := some 2020
  daoForkSupport := false
  homesteadBlock := none
  daoForkBlock := none
  eip150Block := none
  eip155Block := none
  eip158Block := none
  byzantiumBlock := none
  constantinopleBlock := none
  petersburgBlock := none
  istanbulBlock := none
  muirGlacierBlock := none
  berlinBlock := none
  londonBlock := none
  arrowGlacierBlock := none
  odysseusBlock := none
  fenixBlock := none
  consortiumV2Block := none
  puffyBlock := none
  bubaBlock := none
  olekBlock := none
  shillinBlock := none
  antennaBlock := none
  mikoBlock := none
  trippBlock := none
  aaronBlock := none
  shanghaiBlock := none
  cancunBlock := none
  venokiBlock := none
  pragueBlock := none }

/-- Stored config of the spec's compat scenario: Berlin at 5000. -/
def cfgStoredBerlin : ChainConfig := { cfgNone with berlinBlock := some 5000 }

/-- New config of the spec's compat scenario: Berlin at 4000. -/
def cfgNewBerlin : ChainConfig := { cfgNone with berlinBlock := some 4000 }

/-! ## Claims -/

/-- Claim C8 (counterexample): on a concrete header whose extra-data is
empty, seal_hash hits the Go out-of-range slice panic (modeled `none`): it
diverges instead of returning an ExtraTooShort error value. The claim that
it "returns an error rather than succeeding or diverging" is false — the Go
return type of SealHash is a bare hash with no error channel, and the source
comments on encodeSigHeader state the panic is intentional. -/
theorem sealHash_short_extra_cex :
    SealHash (fun _ => 0) hdrNoExtra = none
    ∧ ∀ h : Nat, SealHash (fun _ => 0) hdrNoExtra ≠ some h := by
  refine ⟨rfl, ?_⟩
  intro h hcontra
  simp [SealHash, encodeSigHeader, hdrNoExtra, extraSeal, hdr0] at hcontra

/-- Claim C8 (amended): for every header whose extra-data is shorter than 65
bytes, seal_hash panics (Go slice out-of-range, modeled as `none`): it
neither returns a hash nor an error value. -/
theorem sealHash_short_extra_panics (k : SigHeaderFields → Nat) (header : Header)
    (hlen : header.extra.length < 65) : SealHash k header = none := by
  simp [SealHash, encodeSigHeader, extraSeal, hlen]

/-- Witness for the amended C8 at a concrete header. -/
theorem sealHash_short_extra_panics_witness :
    SealHash (fun _ => 0) hdrNoExtra = none :=
  sealHash_short_extra_panics (fun _ => 0) hdrNoExtra (by decide)

/-- Claim C9: for every header whose hash misses the signature cache and
whose extra-data is shorter than 65 bytes, Ecrecover (and hence Author)
returns the zero address together with the MissingSignature error; the
result is the same for every seal-hash and recovery function, i.e. the seal
hash is never evaluated. -/
theorem ecrecover_short_extra_missing_signature
    (keccakRLP : SigHeaderFields → Nat)
    (recoverAddr : Nat → List Nat → Except VErr Address)
    (header : Header) (hlen : header.extra.length < 65) :
    Ecrecover keccakRLP recoverAddr none header = (0, some .missingSignature)
    ∧ Author keccakRLP recoverAddr none header = (0, some .missingSignature) := by
  have h : Ecrecover keccakRLP recoverAddr none header = (0, some .missingSignature) := by
    simp [Ecrecover, extraSeal, hlen]
  exact ⟨h, h⟩

/-- Witness for C9 at a concrete header and concrete crypto functions. -/
theorem ecrecover_short_extra_missing_signature_witness :
    Ecrecover (fun _ => 0) (fun _ _ => .ok 5) none hdrNoExtra
      = (0, some .missingSignature)
    ∧ Author (fun _ => 0) (fun _ _ => .ok 5) none hdrNoExtra
      = (0, some .missingSignature) :=
  ecrecover_short_extra_missing_signature (fun _ => 0) (fun _ _ => .ok 5)
    hdrNoExtra (by decide)

/-- Claim C10: with a nil Petersburg block, IsPetersburg agrees with
IsConstantinople at every block number; with a set Petersburg block p,
IsPetersburg holds exactly when p ≤ num. -/
theorem isPetersburg_spec (c : ChainConfig) (n : Nat) :
    (c.petersburgBlock = none →
      IsPetersburg c (some n) = IsConstantinople c (some n))
    ∧ (∀ p, c.petersburgBlock = some p →
      (IsPetersburg c (some n) = true ↔ p ≤ n)) := by
  constructor
  · intro hp
    simp [IsPetersburg, IsConstantinople, hp, isForked]
  · intro p hp
    simp [IsPetersburg, IsConstantinople, hp, isForked]

/-- Witness for C10 at concrete configs and block number 7. -/
theorem isPetersburg_spec_witness :
    (IsPetersburg { cfgNone with constantinopleBlock := some 5 } (some 7)
      = IsConstantinople { cfgNone with constantinopleBlock := some 5 } (some 7))
    ∧ (IsPetersburg { cfgNone with petersburgBlock := some 9 } (some 7) = true ↔ 9 ≤ 7) :=
  ⟨(isPetersburg_spec { cfgNone with constantinopleBlock := some 5 } 7).1 rfl,
   (isPetersburg_spec { cfgNone with petersburgBlock := some 9 } 7).2 9 rfl⟩

/-- Claim C5: Finalize fails with the system-tx mismatch error when the
supplied list is non-empty but block number+1 is not the ConsortiumV2
activation block, or empty when it is; with a non-empty list, transactions
left unconsumed by WrapUpEpoch are the same error; and the state root and
empty uncle hash are stamped exactly on the error-free outcomes. -/
theorem finalize_system_tx_spec (c : ChainConfig) (number : Nat)
    (systemTxs : List Nat) (wrapUpEpoch : List Nat → Except VErr (List Nat))
    (stateRoot : Nat) :
    (systemTxs ≠ [] → IsOnConsortiumV2 c (some (number + 1)) = false →
      Finalize c number systemTxs wrapUpEpoch stateRoot = .error .systemTxMismatch)
    ∧ (systemTxs = [] → IsOnConsortiumV2 c (some (number + 1)) = true →
      Finalize c number systemTxs wrapUpEpoch stateRoot = .error .systemTxMismatch)
    ∧ (∀ remaining, systemTxs ≠ [] → wrapUpEpoch systemTxs = .ok remaining →
      remaining ≠ [] →
      Finalize c number systemTxs wrapUpEpoch stateRoot = .error .systemTxMismatch)
    ∧ (∀ out, Finalize c number systemTxs wrapUpEpoch stateRoot = .ok out →
      out = (stateRoot, uncleHash)) := by
  refine ⟨?_, ?_, ?_, ?_⟩
  · intro hne hlast
    have hlen : 0 < systemTxs.length := List.length_pos.mpr hne
    simp [Finalize, hlast, hlen]
  · intro he hlast
    simp [Finalize, hlast, he]
  · intro remaining hne hwrap hrem
    have hlen : 0 < systemTxs.length := List.length_pos.mpr hne
    have hrlen : 0 < remaining.length := List.length_pos.mpr hrem
    by_cases hlast : IsOnConsortiumV2 c (some (number + 1)) = true
    · simp [Finalize, hlast, hlen, hwrap, hrlen, Nat.pos_iff_ne_zero]
    · simp only [Bool.not_eq_true] at hlast
      simp [Finalize, hlast, hlen]
  · intro out hout
    simp only [Finalize] at hout
    by_cases h1 : (0 < systemTxs.length ∧ IsOnConsortiumV2 c (some (number + 1)) = false)
        ∨ (systemTxs.length = 0 ∧ IsOnConsortiumV2 c (some (number + 1)) = true)
    · rw [if_pos h1] at hout
      exact absurd hout (by simp)
    · rw [if_neg h1] at hout
      by_cases h2 : 0 < systemTxs.length
      · rw [if_pos h2] at hout
        cases hw : wrapUpEpoch systemTxs with
        | error e =>
          rw [hw] at hout
          exact absurd hout (by simp)
        | ok remaining =>
          rw [hw] at hout
          have hout2 : (if 0 < remaining.length
              then (Except.error VErr.systemTxMismatch : Except VErr (Nat × Nat))
              else Except.ok (stateRoot, uncleHash)) = Except.ok out := hout
          by_cases h3 : 0 < remaining.length
          · rw [if_pos h3] at hout2
            exact absurd hout2 (by simp)
          · rw [if_neg h3] at hout2
            exact (Except.ok.inj hout2).symm
      · rw [if_neg h2] at hout
        exact (Except.ok.inj hout).symm

/-- Claim C2: for headers with at least 65 bytes of extra-data, the seal
hash is a function of the 15 encodeSigHeader fields with the trailing 65
extra-data bytes removed — two headers agreeing on everything except the
last 65 extra-data bytes hash identically, and attaching a 65-byte
signature leaves the seal hash unchanged. -/
theorem sealHash_ignores_trailing_seal :
    (∀ (keccakRLP : SigHeaderFields → Nat) (h1 h2 : Header),
      65 ≤ h1.extra.length → h1.extra.length = h2.extra.length →
      h1.parentHash = h2.parentHash → h1.uncleHash = h2.uncleHash →
      h1.coinbase = h2.coinbase → h1.root = h2.root → h1.txHash = h2.txHash →
      h1.receiptHash = h2.receiptHash → h1.bloom = h2.bloom →
      h1.difficulty = h2.difficulty → h1.number = h2.number →
      h1.gasLimit = h2.gasLimit → h1.gasUsed = h2.gasUsed → h1.time = h2.time →
      h1.mixDigest = h2.mixDigest → h1.nonce = h2.nonce →
      h1.extra.take (h1.extra.length - 65) = h2.extra.take (h2.extra.length - 65) →
      SealHash keccakRLP h1 = SealHash keccakRLP h2)
    ∧ (∀ (keccakRLP : SigHeaderFields → Nat) (header : Header) (sig : List Nat),
      65 ≤ header.extra.length → sig.length = 65 →
      SealHash keccakRLP (attachSignature header sig) = SealHash keccakRLP header) := by
  constructor
  · intro k h1 h2 hlen hleneq e1 e2 e3 e4 e5 e6 e7 e8 e9 e10 e11 e12 e13 e14 hext
    simp only [SealHash, encodeSigHeader, extraSeal]
    rw [if_neg (by omega), if_neg (by omega)]
    simp [e1, e2, e3, e4, e5, e6, e7, e8, e9, e10, e11, e12, e13, e14, hext]
  · intro k header sig hlen hsig
    have htk : (header.extra.take (header.extra.length - 65)).length
        = header.extra.length - 65 := by
      rw [List.length_take]
      omega
    have hlen2 : (attachSignature header sig).extra.length = header.extra.length := by
      simp only [attachSignature, extraSeal, List.length_append, htk, hsig]
      omega
    have hx : (attachSignature header sig).extra.take
        ((attachSignature header sig).extra.length - 65)
        = header.extra.take (header.extra.length - 65) := by
      rw [hlen2]
      simp only [attachSignature, extraSeal]
      calc (header.extra.take (header.extra.length - 65) ++ sig).take
            (header.extra.length - 65)
          = (header.extra.take (header.extra.length - 65) ++ sig).take
            (header.extra.take (header.extra.length - 65)).length := by rw [htk]
        _ = header.extra.take (header.extra.length - 65) := List.take_left _ _
    simp only [SealHash, encodeSigHeader, extraSeal]
    rw [if_neg (by omega), if_neg (by omega)]
    simp [attachSignature, hx.symm, hlen2]

/-- Witness for C2 at a concrete header, signature, and hash function. -/
theorem sealHash_ignores_trailing_seal_witness :
    SealHash (fun _ => 0) (attachSignature hdr0 (List.replicate 65 1))
      = SealHash (fun _ => 0) hdr0 :=
  sealHash_ignores_trailing_seal.2 (fun _ => 0) hdr0 (List.replicate 65 1)
    (by decide) (by decide)

/-- Claim C6: the standalone header checks reject extra-data shorter than 32
bytes with MissingVanity and shorter than 97 bytes with MissingSignature;
a non-checkpoint header with a nonzero signer-byte count is ExtraSigners,
and a checkpoint header whose signer bytes are not a multiple of 20 is
InvalidCheckpointSigners — all given that the earlier checks (number
present, not from the future, zero nonce) pass. -/
theorem verifyHeader_extra_data_errors (epoch now : Nat)
    (forkHashRes cascadeRes : Except VErr Unit) (header : Header) (n : Nat)
    (hn : header.number = some n) (ht : header.time ≤ now)
    (hnonce : header.nonce = 0) :
    (header.extra.length < 32 →
      VerifyHeaderAndParents epoch now forkHashRes cascadeRes header
        = .error .missingVanity)
    ∧ (32 ≤ header.extra.length → header.extra.length < 97 →
      VerifyHeaderAndParents epoch now forkHashRes cascadeRes header
        = .error .missingSignature)
    ∧ (97 ≤ header.extra.length → n % epoch ≠ 0 →
      header.extra.length - 32 - 65 ≠ 0 →
      VerifyHeaderAndParents epoch now forkHashRes cascadeRes header
        = .error .extraSigners)
    ∧ (97 ≤ header.extra.length → n % epoch = 0 →
      (header.extra.length - 32 - 65) % 20 ≠ 0 →
      VerifyHeaderAndParents epoch now forkHashRes cascadeRes header
        = .error .invalidCheckpointSigners) := by
  have hbase : ∀ r : Except VErr Unit,
      (if now < header.time then (Except.error VErr.futureBlock : Except VErr Unit)
        else if header.nonce ≠ 0 then .error .invalidNonce else r) = r := by
    intro r
    rw [if_neg (by omega), if_neg (by simp [hnonce])]
  refine ⟨?_, ?_, ?_, ?_⟩
  · intro h32
    simp only [VerifyHeaderAndParents, hn, extraVanity, extraSeal, addressLength]
    rw [hbase]
    rw [if_pos h32]
  · intro h32 h97
    simp only [VerifyHeaderAndParents, hn, extraVanity, extraSeal, addressLength]
    rw [hbase]
    rw [if_neg (by omega), if_pos (by omega)]
  · intro h97 hcp hsb
    simp only [VerifyHeaderAndParents, hn, extraVanity, extraSeal, addressLength]
    rw [hbase]
    rw [if_neg (by omega), if_neg (by omega), if_pos ⟨hcp, hsb⟩]
  · intro h97 hcp hsb
    simp only [VerifyHeaderAndParents, hn, extraVanity, extraSeal, addressLength]
    rw [hbase]
    rw [if_neg (by omega), if_neg (by omega),
      if_neg (by simp [hcp]), if_pos ⟨hcp, hsb⟩]

/-- Witness for C6: headers with 0, 40, 98 bytes of extra-data at a
non-checkpoint number, and 98 bytes at a checkpoint number. -/
theorem verifyHeader_extra_data_errors_witness :
    (VerifyHeaderAndParents 30000 100 (.ok ()) (.ok ()) hdrNoExtra
      = .error .missingVanity)
    ∧ (VerifyHeaderAndParents 30000 100 (.ok ()) (.ok ())
        { hdr0 with extra := List.replicate 40 0 } = .error .missingSignature)
    ∧ (VerifyHeaderAndParents 30000 100 (.ok ()) (.ok ())
        { hdr0 with extra := List.replicate 98 0 } = .error .extraSigners)
    ∧ (VerifyHeaderAndParents 30000 100 (.ok ()) (.ok ())
        { hdr0 with number := some 30000, extra := List.replicate 98 0 }
        = .error .invalidCheckpointSigners) :=
  ⟨(verifyHeader_extra_data_errors 30000 100 (.ok ()) (.ok ()) hdrNoExtra 1
      rfl (by decide) rfl).1 (by decide),
   (verifyHeader_extra_data_errors 30000 100 (.ok ()) (.ok ())
      { hdr0 with extra := List.replicate 40 0 } 1 rfl (by decide) rfl).2.1
      (by decide) (by decide),
   (verifyHeader_extra_data_errors 30000 100 (.ok ()) (.ok ())
      { hdr0 with extra := List.replicate 98 0 } 1 rfl (by decide) rfl).2.2.1
      (by decide) (by decide) (by decide),
   (verifyHeader_extra_data_errors 30000 100 (.ok ()) (.ok ())
      { hdr0 with number := some 30000, extra := List.replicate 98 0 } 30000
      rfl (by decide) rfl).2.2.2 (by decide) (by decide) (by decide)⟩

/-- Claim C1: a header with number n > 0 accepted by verifySeal carries
difficulty 7 exactly when the snapshot's signer list entry at index
(n − n/Epoch·Epoch) mod |signerList| — that is, signerInTurn — equals the
recovered signer, and 3 otherwise; with every earlier check passing, a
difficulty disagreeing with the turn rule is rejected with WrongDifficulty. -/
theorem verifySeal_difficulty_turn_rule (epoch : Nat) (snap : Snapshot)
    (header : Header) (n : Nat) (s : Address)
    (hn : header.number = some n) (hpos : 0 < n)
    (hne : snap.signerList ≠ []) :
    (verifySeal epoch (.ok snap) s none header = .ok () →
      header.difficulty =
        some (if signerInTurn epoch s n snap.signerList then 7 else 3))
    ∧ (s = header.coinbase → snap.signerSet.contains s = true →
      ∀ d : Int, header.difficulty = some d →
      d ≠ (if signerInTurn epoch s n snap.signerList then 7 else 3) →
      verifySeal epoch (.ok snap) s none header = .error .wrongDifficulty) := by
  have hn0 : ¬ n = 0 := by omega
  constructor
  · intro hok
    by_cases hc : s = header.coinbase
    · subst hc
      by_cases hm : snap.signerSet.contains header.coinbase = true
      · have hm' : header.coinbase ∈ snap.signerSet := by simpa using hm
        cases hd : header.difficulty with
        | none => simp [verifySeal, hn, hn0, hm', hd] at hok
        | some d =>
          by_cases hit : signerInTurn epoch header.coinbase n snap.signerList = true
          · by_cases h7 : d = diffInTurn
            · simp [hd, hit, h7, diffInTurn]
            · simp [verifySeal, hn, hn0, hm', hd, hit, h7] at hok
          · by_cases h3 : d = diffNoTurn
            · simp [hd, hit, h3, diffNoTurn]
            · simp [verifySeal, hn, hn0, hm', hd, hit, h3] at hok
      · have hm' : header.coinbase ∉ snap.signerSet := by simpa using hm
        simp [verifySeal, hn, hn0, hm'] at hok
    · simp [verifySeal, hn, hn0, hc] at hok
  · intro hc hm d hd hne7
    subst hc
    have hm' : header.coinbase ∈ snap.signerSet := by simpa using hm
    by_cases hit : signerInTurn epoch header.coinbase n snap.signerList = true
    · have h7 : d ≠ diffInTurn := by simpa [hit, diffInTurn] using hne7
      simp [verifySeal, hn, hn0, hm', hd, hit, h7]
    · have h3 : d ≠ diffNoTurn := by simpa [hit, diffNoTurn] using hne7
      simp [verifySeal, hn, hn0, hm', hd, hit, h3]

/-- Witness for C1: three-signer network, block 1, in-turn signer 11 with
difficulty 7 is accepted; difficulty 3 for the same signer is rejected with
WrongDifficulty. -/
theorem verifySeal_difficulty_turn_rule_witness :
    (verifySeal 30000 (.ok snap0) 11 none hdr0 = .ok () →
      hdr0.difficulty = some (if signerInTurn 30000 11 1 snap0.signerList then 7 else 3))
    ∧ (verifySeal 30000 (.ok snap0) 11 none { hdr0 with difficulty := some 3 }
      = .error .wrongDifficulty) :=
  ⟨(verifySeal_difficulty_turn_rule 30000 snap0 hdr0 1 11 rfl (by decide)
      (by decide)).1,
   (verifySeal_difficulty_turn_rule 30000 snap0 { hdr0 with difficulty := some 3 }
      1 11 rfl (by decide) (by decide)).2 rfl (by decide) 3 rfl (by decide)⟩

/-- Claim C3: verifySeal performs no recent-signer-window check — with the
coinbase, membership, and turn-difficulty checks satisfied it accepts even
when the signer sits in the snapshot's recents within ⌊|signerList|/2⌋
blocks of n; the very same snapshot makes Seal return RecentlySigned, so
only sealing enforces the window. -/
theorem verifySeal_ignores_recent_window (epoch period : Nat) (snap : Snapshot)
    (header : Header) (n seen : Nat) (s : Address) (numTxs : Nat)
    (hn : header.number = some n) (hn64 : n < u64Mod)
    (hlim : snap.signerList.length / 2 + 1 ≤ n)
    (hcoin : s = header.coinbase)
    (hset : snap.signerSet.contains s = true)
    (hlist : snap.signerList.contains s = true)
    (hdiff : header.difficulty
      = some (if signerInTurn epoch s n snap.signerList then 7 else 3))
    (hrec : (seen, s) ∈ snap.recents)
    (hwin : n - seen ≤ snap.signerList.length / 2)
    (hper : ¬(period = 0 ∧ numTxs = 0)) :
    verifySeal epoch (.ok snap) s none header = .ok ()
    ∧ Seal period s (.ok snap.signerList) (.ok snap) header numTxs
      = .error .recentlySigned := by
  have hn0 : ¬ n = 0 := by omega
  subst hcoin
  have hset' : header.coinbase ∈ snap.signerSet := by simpa using hset
  constructor
  · by_cases hit : signerInTurn epoch header.coinbase n snap.signerList = true
    · simp [verifySeal, hn, hn0, hset', hdiff, hit, diffInTurn]
    · simp [verifySeal, hn, hn0, hset', hdiff, hit, diffNoTurn]
  · have hany : snap.recents.any (fun p =>
        p.2 == header.coinbase &&
          decide ((n + u64Mod - (snap.signerList.length / 2 + 1)) % u64Mod < p.1))
        = true := by
      refine List.any_eq_true.mpr ⟨(seen, header.coinbase), hrec, ?_⟩
      have hw : (n + u64Mod - (snap.signerList.length / 2 + 1)) % u64Mod
          = n - (snap.signerList.length / 2 + 1) := by
        unfold u64Mod at hn64 ⊢
        omega
      simp only [hw, beq_self_eq_true, Bool.true_and, decide_eq_true_eq]
      omega
    simp only [Seal, hn]
    rw [if_neg hn0, if_neg hper, if_neg (by simpa using hlist), if_pos hany]

/-- Witness for C3: signer 10 sealed block 1; at block 2 verifySeal accepts
its correctly-difficultied header while Seal refuses with RecentlySigned. -/
theorem verifySeal_ignores_recent_window_witness :
    verifySeal 30000 (.ok snapRec) 10 none
      { hdr0 with number := some 2, coinbase := 10, difficulty := some 3 } = .ok ()
    ∧ Seal 3 10 (.ok snapRec.signerList) (.ok snapRec)
      { hdr0 with number := some 2, coinbase := 10, difficulty := some 3 } 0
      = .error .recentlySigned :=
  verifySeal_ignores_recent_window 30000 3 snapRec
    { hdr0 with number := some 2, coinbase := 10, difficulty := some 3 }
    2 1 10 0 rfl (by decide) (by decide) rfl (by decide) (by decide) (by decide)
    (by decide) (by decide) (by decide)

/-- Claim C4: with the earlier Seal guards passing (nonzero block, sealing
not paused, authorized signer, no uint64 wrap: limit ≤ n < 2^64), Seal
returns RecentlySigned exactly when the local signer appears in the parent
snapshot's recents at a block seen with seen > n − (⌊|validators|/2⌋ + 1);
equivalently a sole recents entry at distance ≤ ⌊|validators|/2⌋ is
rejected while one at distance ⌊|validators|/2⌋ + 1 is permitted. -/
theorem seal_recently_signed_iff (period : Nat) (val : Address)
    (validators : List Address) (snap : Snapshot) (header : Header)
    (n numTxs : Nat)
    (hn : header.number = some n) (hn64 : n < u64Mod)
    (hlim : validators.length / 2 + 1 ≤ n)
    (hval : validators.contains val = true)
    (hper : ¬(period = 0 ∧ numTxs = 0)) :
    (Seal period val (.ok validators) (.ok snap) header numTxs
        = .error .recentlySigned
      ↔ ∃ seen, (seen, val) ∈ snap.recents
        ∧ n - (validators.length / 2 + 1) < seen)
    ∧ (∀ d, d ≤ validators.length / 2 → snap.recents = [(n - d, val)] →
      Seal period val (.ok validators) (.ok snap) header numTxs
        = .error .recentlySigned)
    ∧ (snap.recents = [(n - (validators.length / 2 + 1), val)] →
      Seal period val (.ok validators) (.ok snap) header numTxs = .ok ()) := by
  have hn0 : ¬ n = 0 := by omega
  have hval' : val ∈ validators := by simpa using hval
  have hw : (n + u64Mod - (validators.length / 2 + 1)) % u64Mod
      = n - (validators.length / 2 + 1) := by
    unfold u64Mod at hn64 ⊢
    omega
  have hseal : ∀ b : Bool, snap.recents.any (fun p =>
        p.2 == val &&
          decide ((n + u64Mod - (validators.length / 2 + 1)) % u64Mod < p.1)) = b →
      Seal period val (.ok validators) (.ok snap) header numTxs
        = (if b then .error .recentlySigned else .ok ()) := by
    intro b hb
    simp only [Seal, hn]
    rw [if_neg hn0, if_neg hper, if_neg (by simpa using hval), hb]
  constructor
  · constructor
    · intro hrs
      by_cases hb : snap.recents.any (fun p =>
          p.2 == val &&
            decide ((n + u64Mod - (validators.length / 2 + 1)) % u64Mod < p.1)) = true
      · obtain ⟨⟨seen, a⟩, hmem, hp⟩ := List.any_eq_true.mp hb
        simp only [hw, Bool.and_eq_true, beq_iff_eq, decide_eq_true_eq] at hp
        exact ⟨seen, by rwa [hp.1] at hmem, hp.2⟩
      · have := hseal false (by simpa using hb)
        rw [this] at hrs
        exact absurd hrs (by simp)
    · intro ⟨seen, hmem, hgt⟩
      have hb : snap.recents.any (fun p =>
          p.2 == val &&
            decide ((n + u64Mod - (validators.length / 2 + 1)) % u64Mod < p.1)) = true := by
        refine List.any_eq_true.mpr ⟨(seen, val), hmem, ?_⟩
        simp only [hw, beq_self_eq_true, Bool.true_and, decide_eq_true_eq]
        exact hgt
      simpa using hseal true hb
  · constructor
    · intro d hd hrec
      have hb : snap.recents.any (fun p =>
          p.2 == val &&
            decide ((n + u64Mod - (validators.length / 2 + 1)) % u64Mod < p.1)) = true := by
        rw [hrec]
        simp only [List.any_cons, List.any_nil, Bool.or_false,
          beq_self_eq_true, Bool.true_and, decide_eq_true_eq, hw]
        omega
      simpa using hseal true hb
    · intro hrec
      have hb : snap.recents.any (fun p =>
          p.2 == val &&
            decide ((n + u64Mod - (validators.length / 2 + 1)) % u64Mod < p.1)) = false := by
        rw [hrec]
        simp only [List.any_cons, List.any_nil, Bool.or_false,
          beq_self_eq_true, Bool.true_and, decide_eq_false_iff_not, hw]
        omega
      simpa using hseal false hb

/-- Witness for C4: three validators (window ⌊3/2⌋ = 1, limit 2) at block 3
with signer 10 having sealed block 2: RecentlySigned, matching the recents
entry 2 > 3 − 2; the distance-1 entry is rejected and the distance-2 entry
permitted. -/
theorem seal_recently_signed_iff_witness :
    (Seal 3 10 (.ok [10, 11, 12]) (.ok { snap0 with recents := [(2, 10)] })
        { hdr0 with number := some 3, coinbase := 10 } 0
        = .error .recentlySigned
      ↔ ∃ seen, (seen, 10) ∈ ({ snap0 with recents := [(2, 10)] } : Snapshot).recents
        ∧ 3 - ([10, 11, 12].length / 2 + 1) < seen)
    ∧ (Seal 3 10 (.ok [10, 11, 12]) (.ok { snap0 with recents := [(2, 10)] })
        { hdr0 with number := some 3, coinbase := 10 } 0
        = .error .recentlySigned)
    ∧ (Seal 3 10 (.ok [10, 11, 12]) (.ok { snap0 with recents := [(1, 10)] })
        { hdr0 with number := some 3, coinbase := 10 } 0 = .ok ()) :=
  ⟨(seal_recently_signed_iff 3 10 [10, 11, 12] { snap0 with recents := [(2, 10)] }
      { hdr0 with number := some 3, coinbase := 10 } 3 0 rfl (by decide) (by decide)
      (by decide) (by decide)).1,
   (seal_recently_signed_iff 3 10 [10, 11, 12] { snap0 with recents := [(2, 10)] }
      { hdr0 with number := some 3, coinbase := 10 } 3 0 rfl (by decide) (by decide)
      (by decide) (by decide)).2.1 1 (by decide) (by decide),
   (seal_recently_signed_iff 3 10 [10, 11, 12] { snap0 with recents := [(1, 10)] }
      { hdr0 with number := some 3, coinbase := 10 } 3 0 rfl (by decide) (by decide)
      (by decide) (by decide)).2.2 (by decide)⟩

/-- The spec-side formula of claim C7 for the rewind target:
min(S.block, N.block) with null treated as absent. -/
def specMinForkBlock : Option Nat → Option Nat → Option Nat
  | none, none => none
  | none, some b => some b
  | some a, none => some a
  | some a, some b => some (min a b)

/-- Claim C7: a fork is incompatible exactly when it is active at the head
in the stored or the new config and the two activation blocks differ; the
compat error rewinds to min(stored, new) − 1 (null absent, minimum
positive); and CheckCompatible on the spec's Berlin scenario (stored 5000,
new 4000, head 4500) iterates down to the lowest conflict 3999. -/
theorem fork_compat_spec :
    (∀ s1 s2 head, isForkIncompatible s1 s2 (some head) = true ↔
      ((isForked s1 (some head) = true ∨ isForked s2 (some head) = true)
        ∧ s1 ≠ s2))
    ∧ (∀ what sb nb m, specMinForkBlock sb nb = some m → 1 ≤ m →
      (newCompatError what sb nb).rewindTo = m - 1)
    ∧ CheckCompatible cfgStoredBerlin cfgNewBerlin 4500 =
      some { what := "Berlin fork block", storedConfig := some 5000,
             newConfig := some 4000, rewindTo := 3999 } := by
  refine ⟨?_, ?_, ?_⟩
  · intro s1 s2 head
    have hcne : configNumEqual s1 s2 = true ↔ s1 = s2 := by
      cases s1 with
      | none => cases s2 <;> simp [configNumEqual]
      | some a => cases s2 <;> simp [configNumEqual]
    constructor
    · intro h
      simp only [isForkIncompatible, Bool.and_eq_true, Bool.or_eq_true,
        Bool.not_eq_true'] at h
      exact ⟨h.1, fun he => by simp [hcne.mpr he] at h⟩
    · intro ⟨hor, hne⟩
      simp only [isForkIncompatible, Bool.and_eq_true, Bool.or_eq_true,
        Bool.not_eq_true']
      refine ⟨hor, ?_⟩
      cases hc : configNumEqual s1 s2
      · rfl
      · exact absurd (hcne.mp hc) hne
  · intro what sb nb m hmin hpos
    cases sb with
    | none =>
      cases nb with
      | none => simp [specMinForkBlock] at hmin
      | some b =>
        simp only [specMinForkBlock, Option.some.injEq] at hmin
        subst hmin
        simp only [newCompatError]
        rw [if_pos (by omega)]
    | some a =>
      cases nb with
      | none =>
        simp only [specMinForkBlock, Option.some.injEq] at hmin
        subst hmin
        simp only [newCompatError]
        rw [if_pos (by omega)]
      | some b =>
        simp only [specMinForkBlock, Option.some.injEq] at hmin
        subst hmin
        simp only [newCompatError]
        by_cases hab : a < b
        · rw [if_pos hab]
          simp only
          rw [if_pos (by omega)]
          omega
        · rw [if_neg hab]
          simp only
          rw [if_pos (by omega)]
          omega
  · rfl

/-- Witness for C7: the rewind-formula conjunct applied to the Berlin
scenario's blocks 5000 and 4000. -/
theorem fork_compat_spec_witness :
    (newCompatError "Berlin fork block" (some 5000) (some 4000)).rewindTo
      = 4000 - 1 :=
  fork_compat_spec.2.1 "Berlin fork block" (some 5000) (some 4000) 4000
    (by decide) (by decide)

/-- Witness for C5: block 9 of a chain whose ConsortiumV2 block is 10, one
supplied system transaction. -/
theorem finalize_system_tx_spec_witness :
    (Finalize { cfgNone with consortiumV2Block := some 10 } 5 [1]
      (fun _ => .ok []) 77 = .error .systemTxMismatch)
    ∧ (Finalize { cfgNone with consortiumV2Block := some 10 } 9 [1]
      (fun _ => .ok [1]) 77 = .error .systemTxMismatch)
    ∧ (Finalize { cfgNone with consortiumV2Block := some 10 } 9 [1]
      (fun _ => .ok []) 77 = .ok (77, uncleHash)) := by
  refine ⟨?_, ?_, ?_⟩
  · exact (finalize_system_tx_spec { cfgNone with consortiumV2Block := some 10 }
      5 [1] (fun _ => .ok []) 77).1 (by decide) (by decide)
  · exact (finalize_system_tx_spec { cfgNone with consortiumV2Block := some 10 }
      9 [1] (fun _ => .ok [1]) 77).2.2.1 [1] (by decide) rfl (by decide)
  · rfl

end RoninV1
